import Mathlib

/-!
Verification of the safe-conversion utilities of `src/AntiPatterns.ipynb`
(the "best practice" cells): the typed `divide`, `read_json_file`, and
`parse_color` / `RGB`.

Shallow embedding conventions:
* Python's dynamically typed values passed to `divide` are modelled by
  `PyVal` (ints, floats, `None`, strings).  Python floats are modelled as
  exact rationals (`ℚ`); the spec's "within floating-point tolerance"
  collapses to exact equality.
* A raised Python exception is a `PyExc` value; the ordered `except`
  clauses of a `try` statement are a list of `ExcClass` handlers searched
  first-match-wins by `firstHandler`, with the catch-all `except Exception`
  matching every exception, exactly as in CPython.
* External collaborators (the filesystem, the UTF-8 codec, the `json`
  decoder, `pathlib`) are modelled at their documented interface; the
  repository's own control flow is translated statement by statement.
-/

set_option autoImplicit false

/-- Python values that can reach `divide`: ints, floats (exact rationals),
`None`, and strings. -/
inductive PyVal where
  | int (n : Int)
  | float (q : ℚ)
  | pyNone
  | str (s : String)
deriving Repr, DecidableEq

/-- Numeric view of a `PyVal`: `some` exact value for ints and floats,
`none` for non-numeric values (`None`, strings). -/
def PyVal.toNum : PyVal → Option ℚ
  | .int n => some (n : ℚ)
  | .float q => some q
  | .pyNone => Option.none
  | .str _ => Option.none

/-- Whether a `PyVal` is a Python number (an int or a float). -/
def PyVal.isNumber : PyVal → Bool
  | .int _ => true
  | .float _ => true
  | _ => false

/-- The Python exceptions that the modelled code can raise. -/
inductive PyExc where
  | zeroDivisionError
  | typeError
  | fileNotFoundError
  | permissionError
  | jsonDecodeError
  | unicodeDecodeError
  | isADirectoryError
  | valueError
  | otherError
deriving Repr, DecidableEq

/-- The exception classes named by the `except` clauses of the notebook. -/
inductive ExcClass where
  | cZeroDivisionError
  | cTypeError
  | cFileNotFoundError
  | cPermissionError
  | cJSONDecodeError
  | cUnicodeDecodeError
  | cIsADirectoryError
  | cException
deriving Repr, DecidableEq

/-- Whether an `except <class>` clause catches a raised exception.
`except Exception` catches every exception in `PyExc` (they are all
subclasses of `Exception` in CPython); the specific clauses catch exactly
their own class (no other subclass relations are exercised here). -/
def ExcClass.catches : ExcClass → PyExc → Bool
  | .cException, _ => true
  | .cZeroDivisionError, .zeroDivisionError => true
  | .cTypeError, .typeError => true
  | .cFileNotFoundError, .fileNotFoundError => true
  | .cPermissionError, .permissionError => true
  | .cJSONDecodeError, .jsonDecodeError => true
  | .cUnicodeDecodeError, .unicodeDecodeError => true
  | .cIsADirectoryError, .isADirectoryError => true
  | _, _ => false

/-- CPython tries the `except` clauses of a `try` statement in source
order and runs the first one whose class catches the raised exception. -/
def firstHandler : List ExcClass → PyExc → Option ExcClass
  | [], _ => Option.none
  | h :: rest, e => if h.catches e then some h else firstHandler rest e

/-- The Failure Category taxonomy of the spec (section 7). -/
inductive FailureCat where
  | divideByZero
  | typeMismatch
  | resourceNotFound
  | permissionDenied
  | decodeError
  | encodingError
  | pathIsDirectory
  | unexpectedError
deriving Repr, DecidableEq

/-- The messages `divide` can print: one per `except` clause, plus the
informational "No errors" printed by the `else` branch on success. -/
inductive DivideMsg where
  | zeroDivDiag
  | typeDiag (b : PyVal)
  | otherDiag
  | noErrors
deriving Repr, DecidableEq

/-- Which Failure Category a printed `divide` message names; the success
message "No errors" names none. -/
def DivideMsg.namesCat : DivideMsg → Option FailureCat
  | .zeroDivDiag => some .divideByZero
  | .typeDiag _ => some .typeMismatch
  | .otherDiag => some .unexpectedError
  | .noErrors => Option.none

/-- Observable outcome of one `divide` call: the returned value, the
Failure Category of the `except` clause that ran (if any), and the
messages printed to the console in order. -/
structure DivideResult where
  value : PyVal
  category : Option FailureCat
  msgs : List DivideMsg
deriving Repr, DecidableEq

/-- Python's `a / b` followed by `float(...)`: `TypeError` when either
operand is not a number (e.g. `None` or a string), `ZeroDivisionError`
when the divisor is numerically zero, otherwise the exact quotient
(`float` of the quotient is the quotient itself in the exact model). -/
def pyTrueDiv (a b : PyVal) : Except PyExc ℚ :=
  match a.toNum, b.toNum with
  | some x, some y => if y = 0 then .error .zeroDivisionError else .ok (x / y)
  | _, _ => .error .typeError

/-- The ordered `except` clauses of the typed `divide` cell. -/
def divideHandlers : List ExcClass :=
  [.cZeroDivisionError, .cTypeError, .cException]

/-- The typed `divide` of the notebook.  The body attempts
`result = float(a / b)`; on success the `else` branch prints "No errors";
each `except` clause prints its diagnostic and leaves `result` at `None`;
the `finally` clause replaces a `None` result with the int `0`, so the
function returns `float(a / b)` on success and `0` on every failure. -/
def divide (a b : PyVal) : DivideResult :=
  match pyTrueDiv a b with
  | .ok q => ⟨.float q, Option.none, [.noErrors]⟩
  | .error e =>
    match firstHandler divideHandlers e with
    | some .cZeroDivisionError => ⟨.int 0, some .divideByZero, [.zeroDivDiag]⟩
    | some .cTypeError => ⟨.int 0, some .typeMismatch, [.typeDiag b]⟩
    | _ => ⟨.int 0, some .unexpectedError, [.otherDiag]⟩

example : divide (PyVal.int 92) (PyVal.int 0) =
    ⟨PyVal.int 0, some FailureCat.divideByZero, [DivideMsg.zeroDivDiag]⟩ := rfl

example : (divide (PyVal.float 92) (PyVal.float 2)).value = PyVal.float 46 := by
  show PyVal.float ((92 : ℚ) / 2) = PyVal.float 46
  norm_num

example : divide (PyVal.int 3) PyVal.pyNone =
    ⟨PyVal.int 0, some FailureCat.typeMismatch, [DivideMsg.typeDiag PyVal.pyNone]⟩ := rfl

/-- JSON values, as produced by the `json` decoder (`json.load`). -/
inductive Json where
  | null
  | bool (b : Bool)
  | num (q : ℚ)
  | str (s : String)
  | arr (elems : List Json)
  | obj (fields : List (String × Json))

/-- What the `open` / `read` / `json.load` pipeline finds in a file,
modelling the external codec and decoder at their interface: the content
either decodes (as UTF-8 text and then as JSON) to a `Json` value, or the
JSON decoder raises `JSONDecodeError`, or the UTF-8 codec raises
`UnicodeDecodeError` while the file is being read. -/
inductive FilePayload where
  | jsonText (j : Json)
  | badJson
  | badEncoding

/-- A filesystem entry: a regular file with its payload, or a directory. -/
inductive FsEntry where
  | file (payload : FilePayload)
  | dir

/-- The filesystem as seen by one call: which path names which entry, and
which paths the process may read. -/
structure FileSys where
  entries : String → Option FsEntry
  readable : String → Bool

/-- Outcome of `Path(file_path).open('r', encoding='utf-8')` on the host:
`FileNotFoundError` for an absent path, `PermissionError` for an
unreadable one, `IsADirectoryError` for a directory, otherwise an open
handle on the file's payload. -/
inductive OpenOutcome where
  | ok (payload : FilePayload)
  | fnf
  | perm
  | isDir

def openFile (fs : FileSys) (path : String) : OpenOutcome :=
  match fs.entries path with
  | Option.none => .fnf
  | some e =>
    if fs.readable path then
      match e with
      | .dir => .isDir
      | .file p => .ok p
    else .perm

/-- File-handle lifecycle events observable during a call. -/
inductive HandleEvent where
  | opened
  | closed
deriving Repr, DecidableEq, BEq

/-- The `logging.error` messages of `read_json_file`, one per `except`
clause, each carrying the offending path as in the source's f-strings. -/
inductive LogMsg where
  | fileNotFound (path : String)
  | permissionDenied (path : String)
  | invalidJson (path : String)
  | encodingError (path : String)
  | isADirectory (path : String)
  | unexpected (path : String)
deriving Repr, DecidableEq

/-- Which Failure Category a `read_json_file` log message names. -/
def LogMsg.namesCat : LogMsg → Option FailureCat
  | .fileNotFound _ => some .resourceNotFound
  | .permissionDenied _ => some .permissionDenied
  | .invalidJson _ => some .decodeError
  | .encodingError _ => some .encodingError
  | .isADirectory _ => some .pathIsDirectory
  | .unexpected _ => some .unexpectedError

/-- Observable outcome of one `read_json_file` call on an already
path-like argument: returned value, Failure Category of the `except`
clause that ran (if any), log messages, and the handle-event trace. -/
structure ReadJsonResult where
  value : Json
  category : Option FailureCat
  msgs : List LogMsg
  trace : List HandleEvent

/-- The `try` body `with Path(file_path).open(...) as file: result =
json.load(file)`.  When `open` itself fails no handle is ever acquired
(empty trace); once `open` succeeds the `with` statement closes the
handle on every exit, including when `json.load` raises, so the trace is
`[opened, closed]` on all post-open paths. -/
def tryReadJson (fs : FileSys) (path : String) :
    Except PyExc Json × List HandleEvent :=
  match openFile fs path with
  | .fnf => (.error .fileNotFoundError, [])
  | .perm => (.error .permissionError, [])
  | .isDir => (.error .isADirectoryError, [])
  | .ok (.jsonText j) => (.ok j, [.opened, .closed])
  | .ok .badJson => (.error .jsonDecodeError, [.opened, .closed])
  | .ok .badEncoding => (.error .unicodeDecodeError, [.opened, .closed])

/-- The ordered `except` clauses of `read_json_file`. -/
def readJsonHandlers : List ExcClass :=
  [.cFileNotFoundError, .cPermissionError, .cJSONDecodeError,
   .cUnicodeDecodeError, .cIsADirectoryError, .cException]

/-- The body of `read_json_file` after the `Path(file_path)` conversion:
`result` starts as the empty dict `{}` and is overwritten only when
`json.load` succeeds; each `except` clause logs its message and leaves
`result` empty; `result` is returned in all cases. -/
def read_json_file (fs : FileSys) (path : String) : ReadJsonResult :=
  match tryReadJson fs path with
  | (.ok j, t) => ⟨j, Option.none, [], t⟩
  | (.error e, t) =>
    match firstHandler readJsonHandlers e with
    | some .cFileNotFoundError =>
        ⟨.obj [], some .resourceNotFound, [.fileNotFound path], t⟩
    | some .cPermissionError =>
        ⟨.obj [], some .permissionDenied, [.permissionDenied path], t⟩
    | some .cJSONDecodeError =>
        ⟨.obj [], some .decodeError, [.invalidJson path], t⟩
    | some .cUnicodeDecodeError =>
        ⟨.obj [], some .encodingError, [.encodingError path], t⟩
    | some .cIsADirectoryError =>
        ⟨.obj [], some .pathIsDirectory, [.isADirectory path], t⟩
    | _ => ⟨.obj [], some .unexpectedError, [.unexpected path], t⟩

/-- The raw argument of `read_json_file`, before the `file_path =
Path(file_path)` conversion: a string, an already constructed `Path`
object, or a value that is neither a `str` nor os.PathLike (e.g. `None`
or an int), for which the `Path` constructor raises `TypeError`. -/
inductive PathArg where
  | str (s : String)
  | pathObj (s : String)
  | nonPath
deriving Repr, DecidableEq

/-- A full call of `read_json_file`, including the `file_path =
Path(file_path)` statement.  That statement runs before the `try` block,
so the `TypeError` that `pathlib` raises for a non-path-like argument is
caught by nothing and propagates to the caller; for `str` and `Path`
arguments the conversion succeeds and the guarded body runs. -/
def read_json_file_call (fs : FileSys) (arg : PathArg) :
    Except PyExc ReadJsonResult :=
  match arg with
  | .str p => .ok (read_json_file fs p)
  | .pathObj p => .ok (read_json_file fs p)
  | .nonPath => .error .typeError

/-- A filesystem with no entries, used for concrete witnesses. -/
def emptyFs : FileSys := ⟨fun _ => Option.none, fun _ => true⟩

example : (read_json_file emptyFs "missing.json").msgs =
    [LogMsg.fileNotFound "missing.json"] := rfl

example : (read_json_file emptyFs "missing.json").trace = [] := rfl

/-- The `RGB` NamedTuple of the notebook.  The annotations promise
0-255 channels but, as for every Python NamedTuple, nothing checks them:
any int can be stored. -/
structure RGB where
  red : Int
  green : Int
  blue : Int
deriving Repr, DecidableEq

/-- Whether a character is an ASCII hexadecimal digit (`0-9a-fA-F`), as
accepted by `int(_, 16)`. -/
def isHexDigitCh (c : Char) : Bool :=
  (decide (48 ≤ c.toNat) && decide (c.toNat ≤ 57)) ||
  (decide (97 ≤ c.toNat) && decide (c.toNat ≤ 102)) ||
  (decide (65 ≤ c.toNat) && decide (c.toNat ≤ 70))

/-- Numeric value of a hexadecimal digit character (0 for non-digits,
which only arises under an `isHexDigitCh` guard). -/
def hexVal (c : Char) : Nat :=
  if 48 ≤ c.toNat ∧ c.toNat ≤ 57 then c.toNat - 48
  else if 97 ≤ c.toNat ∧ c.toNat ≤ 102 then c.toNat - 87
  else if 65 ≤ c.toNat ∧ c.toNat ≤ 70 then c.toNat - 55
  else 0

/-- Digits of an `int(_, 16)` literal after the first one: hexadecimal
digits with single underscores allowed between digits (CPython's numeric
literal grammar), accumulated into `acc`. -/
def hexDigitsAux : List Char → Nat → Option Nat
  | [], acc => some acc
  | c :: rest, acc =>
    if c == '_' then
      match rest with
      | c2 :: rest2 =>
        if isHexDigitCh c2 then hexDigitsAux rest2 (acc * 16 + hexVal c2)
        else Option.none
      | [] => Option.none
    else if isHexDigitCh c then hexDigitsAux rest (acc * 16 + hexVal c)
    else Option.none

/-- A nonempty run of hexadecimal digits (underscores only between
digits), the digit part of `int(_, 16)`. -/
def parseHexNat : List Char → Option Nat
  | [] => Option.none
  | c :: rest =>
    if isHexDigitCh c then hexDigitsAux rest (hexVal c) else Option.none

/-- Digits after an explicit `0x` base marker; CPython also allows one
underscore directly after the marker (`int("0x_ff", 16)`). -/
def hexAfterBase (l : List Char) : Option Nat :=
  match l with
  | c :: rest => if c == '_' then parseHexNat rest else parseHexNat (c :: rest)
  | [] => parseHexNat []

/-- The unsigned part of an `int(_, 16)` literal: an optional `0x` / `0X`
marker followed by digits, or bare digits. -/
def parseHexBody (l : List Char) : Option Nat :=
  match l with
  | c0 :: c1 :: rest =>
    if c0 == '0' && (c1 == 'x' || c1 == 'X') then hexAfterBase rest
    else parseHexNat (c0 :: c1 :: rest)
  | _ => parseHexNat l

/-- ASCII whitespace stripped by `int()` from both ends of its argument. -/
def isPyWs (c : Char) : Bool :=
  c == ' ' || c == '\t' || c == '\n' || c == '\r' ||
  decide (c.toNat = 11) || decide (c.toNat = 12)

/-- Strip whitespace from both ends of a character list. -/
def stripWsChars (l : List Char) : List Char :=
  ((l.dropWhile isPyWs).reverse.dropWhile isPyWs).reverse

/-- The signed part of an `int(_, 16)` literal, after whitespace has been
stripped: an optional sign immediately followed by the unsigned body. -/
def pyIntSigned (l : List Char) : Option Int :=
  match l with
  | [] => Option.none
  | c :: rest =>
    if c == '+' then Option.map (fun n => Int.ofNat n) (parseHexBody rest)
    else if c == '-' then
      Option.map (fun n => -(Int.ofNat n)) (parseHexBody rest)
    else Option.map (fun n => Int.ofNat n) (parseHexBody (c :: rest))

/-- CPython's `int(s, 16)` on a character list: optional surrounding
whitespace, an optional sign immediately followed by the number, an
optional `0x` marker, then hexadecimal digits; `none` models the
`ValueError` raised for anything else.  Note that a sign is accepted, so
`int("-f", 16) = -15`. -/
def pyIntBase16 (l0 : List Char) : Option Int :=
  pyIntSigned (stripWsChars l0)

/-- Python's `str.lower()` restricted to ASCII (every string the notebook
manipulates is ASCII). -/
def pyLowerCh (c : Char) : Char :=
  if 65 ≤ c.toNat ∧ c.toNat ≤ 90 then Char.ofNat (c.toNat + 32) else c

def pyLower (s : String) : String :=
  String.mk (s.toList.map pyLowerCh)

/-- Python's `str.lstrip('#')`: drop every leading `#`. -/
def lstripHash (s : String) : String :=
  String.mk (s.toList.dropWhile (· == '#'))

/-- The string actually matched by `parse_color`:
`color.lstrip('#').lower()`. -/
def canonColor (s : String) : String :=
  pyLower (lstripHash s)

/-- Python's slice `s[a:b]` for the in-range slices used here. -/
def sliceStr (s : String) (a b : Nat) : List Char :=
  (s.toList.drop a).take (b - a)

/-- Lookup in the `COLOR_NAMES` dict of `parse_color`, entry by entry. -/
def lookupColor (s : String) : Option (Int × Int × Int) :=
  if s = "red" then some (255, 0, 0)
  else if s = "green" then some (0, 255, 0)
  else if s = "blue" then some (0, 0, 255)
  else if s = "white" then some (255, 255, 255)
  else if s = "black" then some (0, 0, 0)
  else Option.none

/-- The string branch of `parse_color`'s `try` body: strip `#`, lower,
look the result up in `COLOR_NAMES`; otherwise, for a 6-character string,
parse the three 2-character slices with `int(_, 16)` (a `none` models the
`ValueError` that aborts the branch); any other string reaches the
explicit `raise ValueError`. -/
def parseStrColor (s0 : String) : Except PyExc RGB :=
  match lookupColor (canonColor s0) with
  | some (r, g, b) => .ok ⟨r, g, b⟩
  | Option.none =>
    if (canonColor s0).length = 6 then
      match pyIntBase16 (sliceStr (canonColor s0) 0 2),
            pyIntBase16 (sliceStr (canonColor s0) 2 4),
            pyIntBase16 (sliceStr (canonColor s0) 4 6) with
      | some r, some g, some b => .ok ⟨r, g, b⟩
      | _, _, _ => .error .valueError
    else .error .valueError

/-- The `max(0, min(255, c))` clamp of the tuple branch. -/
def pyClamp (c : Int) : Int := max 0 (min 255 c)

/-- The argument of `parse_color`: a string, a 3-tuple of ints, or any
other value (wrong-length tuples, `None`, numbers, ...), for which both
`isinstance` tests fail and the explicit `raise ValueError` runs. -/
inductive ColorInput where
  | str (s : String)
  | tuple3 (r g b : Int)
  | other
deriving Repr, DecidableEq

/-- The `try` body of `parse_color`. -/
def tryParseColor : ColorInput → Except PyExc RGB
  | .str s => parseStrColor s
  | .tuple3 r g b => .ok ⟨pyClamp r, pyClamp g, pyClamp b⟩
  | .other => .error .valueError

/-- Observable outcome of one `parse_color` call: the returned `RGB`, the
Failure Category of the `except` clause that ran (if any), and the
messages emitted — the `except Exception` clause of `parse_color` prints
and logs nothing, so `msgs` is always empty. -/
structure ParseColorResult where
  value : RGB
  category : Option FailureCat
  msgs : List String
deriving Repr, DecidableEq

/-- The `parse_color` of the notebook: on any exception the single
`except Exception` clause silently returns `RGB(0, 0, 0)`. -/
def parse_color (c : ColorInput) : ParseColorResult :=
  match tryParseColor c with
  | .ok rgb => ⟨rgb, Option.none, []⟩
  | .error _ => ⟨⟨0, 0, 0⟩, some .unexpectedError, []⟩

example : (parse_color (ColorInput.str "#FF0000")).value = ⟨255, 0, 0⟩ := rfl

example : (parse_color (ColorInput.str "blue")).value = ⟨0, 0, 255⟩ := rfl

example : (parse_color (ColorInput.str "not a color")).value = ⟨0, 0, 0⟩ := rfl

example : (parse_color (ColorInput.str "-f0000")).value = ⟨-15, 0, 0⟩ := rfl

example : (parse_color (ColorInput.tuple3 300 (-5) 10)).value = ⟨255, 0, 10⟩ := by
  decide

/-- C3: for all numeric `a` and all numeric nonzero `b`, `divide a b`
returns the exact quotient `a / b` (as a float), selects no Failure
Category, and emits no failure diagnostic — the only message printed is
the informational "No errors" of the `else` branch, which names no
Failure Category. -/
theorem divide_success_exact (a b : PyVal) (x y : ℚ)
    (hx : a.toNum = some x) (hy : b.toNum = some y) (hy0 : y ≠ 0) :
    (divide a b).value = PyVal.float (x / y) ∧
    (divide a b).category = Option.none ∧
    (divide a b).msgs = [DivideMsg.noErrors] ∧
    (divide a b).msgs.filterMap DivideMsg.namesCat = [] := by
  have h : pyTrueDiv a b = Except.ok (x / y) := by
    unfold pyTrueDiv
    rw [hx, hy]
    simp [hy0]
  unfold divide
  rw [h]
  exact ⟨rfl, rfl, rfl, rfl⟩

/-- Witness for C3 at `divide(92.0, 2.0)`. -/
theorem divide_success_exact_witness :
    (divide (PyVal.float 92) (PyVal.float 2)).value = PyVal.float (92 / 2) ∧
    (divide (PyVal.float 92) (PyVal.float 2)).category = Option.none ∧
    (divide (PyVal.float 92) (PyVal.float 2)).msgs = [DivideMsg.noErrors] ∧
    (divide (PyVal.float 92) (PyVal.float 2)).msgs.filterMap
      DivideMsg.namesCat = [] :=
  divide_success_exact (PyVal.float 92) (PyVal.float 2) 92 2 rfl rfl
    (by norm_num)

/-- C4: for all numeric `a` and numerically zero `b`, `divide a b`
returns the int `0` (the `finally` default) and prints exactly the
divide-by-zero diagnostic. -/
theorem divide_by_zero_default (a b : PyVal) (x : ℚ)
    (hx : a.toNum = some x) (hb : b.toNum = some 0) :
    (divide a b).value = PyVal.int 0 ∧
    (divide a b).category = some FailureCat.divideByZero ∧
    (divide a b).msgs = [DivideMsg.zeroDivDiag] := by
  have h : pyTrueDiv a b = Except.error PyExc.zeroDivisionError := by
    unfold pyTrueDiv
    rw [hx, hb]
    simp
  unfold divide
  rw [h]
  exact ⟨rfl, rfl, rfl⟩

/-- Witness for C4 at `divide(92.0, 0.0)`. -/
theorem divide_by_zero_default_witness :
    (divide (PyVal.float 92) (PyVal.float 0)).value = PyVal.int 0 ∧
    (divide (PyVal.float 92) (PyVal.float 0)).category =
      some FailureCat.divideByZero ∧
    (divide (PyVal.float 92) (PyVal.float 0)).msgs =
      [DivideMsg.zeroDivDiag] :=
  divide_by_zero_default (PyVal.float 92) (PyVal.float 0) 92 rfl rfl

/-- C5: for every non-numeric second operand `b` (a `None` or a string)
and any first operand, `divide a b` returns the int `0` and prints
exactly the type-mismatch diagnostic (which interpolates `b`). -/
theorem divide_type_mismatch_default (a b : PyVal)
    (hb : b.toNum = Option.none) :
    (divide a b).value = PyVal.int 0 ∧
    (divide a b).category = some FailureCat.typeMismatch ∧
    (divide a b).msgs = [DivideMsg.typeDiag b] := by
  have h : pyTrueDiv a b = Except.error PyExc.typeError := by
    unfold pyTrueDiv
    rw [hb]
    cases a.toNum <;> rfl
  unfold divide
  rw [h]
  exact ⟨rfl, rfl, rfl⟩

/-- Witness for C5 at `divide(10, None)`. -/
theorem divide_type_mismatch_default_witness :
    (divide (PyVal.int 10) PyVal.pyNone).value = PyVal.int 0 ∧
    (divide (PyVal.int 10) PyVal.pyNone).category =
      some FailureCat.typeMismatch ∧
    (divide (PyVal.int 10) PyVal.pyNone).msgs =
      [DivideMsg.typeDiag PyVal.pyNone] :=
  divide_type_mismatch_default (PyVal.int 10) PyVal.pyNone rfl

/-- C6: for every path that names no filesystem entry, `read_json_file`
returns the empty mapping, selects the resource-not-found category, logs
exactly the file-not-found message for that path, and never touched a
file handle. -/
theorem read_json_missing_file (fs : FileSys) (path : String)
    (h : fs.entries path = Option.none) :
    (read_json_file fs path).value = Json.obj [] ∧
    (read_json_file fs path).category = some FailureCat.resourceNotFound ∧
    (read_json_file fs path).msgs = [LogMsg.fileNotFound path] ∧
    (read_json_file fs path).trace = [] := by
  have ho : openFile fs path = OpenOutcome.fnf := by
    unfold openFile
    rw [h]
  have ht : tryReadJson fs path =
      (Except.error PyExc.fileNotFoundError, []) := by
    unfold tryReadJson
    rw [ho]
  unfold read_json_file
  rw [ht]
  exact ⟨rfl, rfl, rfl, rfl⟩

/-- Witness for C6 on an empty filesystem. -/
theorem read_json_missing_file_witness :
    (read_json_file emptyFs "missing.json").value = Json.obj [] ∧
    (read_json_file emptyFs "missing.json").category =
      some FailureCat.resourceNotFound ∧
    (read_json_file emptyFs "missing.json").msgs =
      [LogMsg.fileNotFound "missing.json"] ∧
    (read_json_file emptyFs "missing.json").trace = [] :=
  read_json_missing_file emptyFs "missing.json" rfl

/-- C8: on every filesystem and path — success, missing file, permission
denied, decode error, encoding error, directory path — the handle trace
of `read_json_file` is balanced: every `opened` is matched by a `closed`,
and the trace is either empty (open itself failed, no handle acquired) or
exactly `[opened, closed]`. -/
theorem read_json_handle_balanced (fs : FileSys) (path : String) :
    (read_json_file fs path).trace.count HandleEvent.opened =
      (read_json_file fs path).trace.count HandleEvent.closed ∧
    ((read_json_file fs path).trace = [] ∨
      (read_json_file fs path).trace =
        [HandleEvent.opened, HandleEvent.closed]) := by
  unfold read_json_file tryReadJson
  cases ho : openFile fs path with
  | ok payload => cases payload <;> exact ⟨rfl, Or.inr rfl⟩
  | fnf => exact ⟨rfl, Or.inl rfl⟩
  | perm => exact ⟨rfl, Or.inl rfl⟩
  | isDir => exact ⟨rfl, Or.inl rfl⟩

/-- C9: for every file whose content decodes to a JSON value `j` —
including a non-object such as an array or a bare number — a readable
path to it makes `read_json_file` return `j` unchanged, with no failure
category and no log message. -/
theorem read_json_nonobject_passthrough (fs : FileSys) (path : String)
    (j : Json)
    (he : fs.entries path = some (FsEntry.file (FilePayload.jsonText j)))
    (hr : fs.readable path = true) :
    (read_json_file fs path).value = j ∧
    (read_json_file fs path).category = Option.none ∧
    (read_json_file fs path).msgs = [] ∧
    (read_json_file fs path).trace =
      [HandleEvent.opened, HandleEvent.closed] := by
  have ho : openFile fs path =
      OpenOutcome.ok (FilePayload.jsonText j) := by
    unfold openFile
    rw [he, hr]
    rfl
  have ht : tryReadJson fs path =
      (Except.ok j, [HandleEvent.opened, HandleEvent.closed]) := by
    unfold tryReadJson
    rw [ho]
  unfold read_json_file
  rw [ht]
  exact ⟨rfl, rfl, rfl, rfl⟩

/-- A filesystem holding one readable file whose content is the JSON
array `[1]` — a valid JSON document whose top-level value is not an
object. -/
def arrayFs : FileSys :=
  ⟨fun _ => some (FsEntry.file (FilePayload.jsonText (Json.arr [Json.num 1]))),
   fun _ => true⟩

/-- Witness for C9: reading that file yields the array itself, not an
empty mapping. -/
theorem read_json_nonobject_passthrough_witness :
    (read_json_file arrayFs "data.json").value = Json.arr [Json.num 1] ∧
    (read_json_file arrayFs "data.json").category = Option.none ∧
    (read_json_file arrayFs "data.json").msgs = [] ∧
    (read_json_file arrayFs "data.json").trace =
      [HandleEvent.opened, HandleEvent.closed] :=
  read_json_nonobject_passthrough arrayFs "data.json"
    (Json.arr [Json.num 1]) rfl rfl

/-- C7: the enumerated `parse_color` examples hold — `"#FF0000"` gives
`(255, 0, 0)`, `"blue"` gives `(0, 0, 255)`, `"not a color"` gives the
sentinel `(0, 0, 0)`, `(300, -5, 10)` gives `(255, 0, 10)` — and every
3-tuple of ints is clamped componentwise into `[0, 255]` with no Failure
Category selected (out-of-range channels are not treated as failure). -/
theorem parse_color_examples_and_clamp :
    (parse_color (ColorInput.str "#FF0000")).value = ⟨255, 0, 0⟩ ∧
    (parse_color (ColorInput.str "blue")).value = ⟨0, 0, 255⟩ ∧
    (parse_color (ColorInput.str "not a color")).value = ⟨0, 0, 0⟩ ∧
    (parse_color (ColorInput.tuple3 300 (-5) 10)).value = ⟨255, 0, 10⟩ ∧
    (∀ r g b : Int,
      (parse_color (ColorInput.tuple3 r g b)).value =
        ⟨pyClamp r, pyClamp g, pyClamp b⟩ ∧
      (parse_color (ColorInput.tuple3 r g b)).category = Option.none) := by
  refine ⟨rfl, rfl, rfl, by decide, ?_⟩
  intro r g b
  exact ⟨rfl, rfl⟩

/-- C1 counterexample: `parse_color("not a color")` is a failing call
(the `except Exception` clause runs, category unexpected-error), yet no
diagnostic message at all is emitted — the clause silently returns black —
so "exactly one diagnostic message ... is emitted" is false for
`parse_color`. -/
theorem parse_color_silent_failure_cex :
    (parse_color (ColorInput.str "not a color")).category =
      some FailureCat.unexpectedError ∧
    (parse_color (ColorInput.str "not a color")).msgs = [] :=
  ⟨rfl, rfl⟩

/-- C1 as amended: for every failing call, exactly one Failure Category
is selected (the first `except` clause that matches, catch-all last);
`divide` and `read_json_file` emit exactly one diagnostic message and it
names that category; `parse_color`, however, emits no diagnostic at all —
its `except` clause silently returns the sentinel. -/
theorem one_category_one_diagnostic :
    (∀ (a b : PyVal) (c : FailureCat), (divide a b).category = some c →
      (divide a b).msgs.filterMap DivideMsg.namesCat = [c]) ∧
    (∀ (fs : FileSys) (path : String) (c : FailureCat),
      (read_json_file fs path).category = some c →
      (read_json_file fs path).msgs.filterMap LogMsg.namesCat = [c]) ∧
    (∀ (ci : ColorInput) (c : FailureCat),
      (parse_color ci).category = some c → (parse_color ci).msgs = []) := by
  refine ⟨?_, ?_, ?_⟩
  · intro a b c h
    unfold divide at h ⊢
    cases hd : pyTrueDiv a b with
    | ok q =>
      rw [hd] at h
      exact Option.noConfusion h
    | error e =>
      cases e <;> simp_all [firstHandler, divideHandlers, ExcClass.catches,
        DivideMsg.namesCat]
  · intro fs path c h
    unfold read_json_file tryReadJson at h ⊢
    cases ho : openFile fs path with
    | ok payload =>
      cases payload <;>
        simp_all [firstHandler, readJsonHandlers, ExcClass.catches,
          LogMsg.namesCat]
    | fnf =>
      simp_all [firstHandler, readJsonHandlers, ExcClass.catches,
        LogMsg.namesCat]
    | perm =>
      simp_all [firstHandler, readJsonHandlers, ExcClass.catches,
        LogMsg.namesCat]
    | isDir =>
      simp_all [firstHandler, readJsonHandlers, ExcClass.catches,
        LogMsg.namesCat]
  · intro ci c h
    unfold parse_color at h ⊢
    cases ht : tryParseColor ci with
    | ok rgb => rw [ht] at h
    | error e => rfl

/-- Witness for the amended C1: a failing `divide`, a failing
`read_json_file`, and a failing `parse_color` at concrete inputs. -/
theorem one_category_one_diagnostic_witness :
    (divide (PyVal.int 92) (PyVal.int 0)).msgs.filterMap
      DivideMsg.namesCat = [FailureCat.divideByZero] ∧
    (read_json_file emptyFs "config.json").msgs.filterMap
      LogMsg.namesCat = [FailureCat.resourceNotFound] ∧
    (parse_color (ColorInput.str "nope")).msgs = [] :=
  ⟨one_category_one_diagnostic.1 (PyVal.int 92) (PyVal.int 0)
      FailureCat.divideByZero rfl,
   one_category_one_diagnostic.2.1 emptyFs "config.json"
      FailureCat.resourceNotFound rfl,
   one_category_one_diagnostic.2.2 (ColorInput.str "nope")
      FailureCat.unexpectedError rfl⟩

/-- C2 counterexample: calling `read_json_file` with a non-path-like
argument (e.g. `None`) makes the `Path(file_path)` statement — which runs
before the `try` block — raise `TypeError`, and that error propagates to
the caller instead of being converted into a default value, so "none of
the three utilities propagates a raised error" is false. -/
theorem read_json_nonpath_propagates_cex :
    read_json_file_call emptyFs PathArg.nonPath =
      Except.error PyExc.typeError := rfl

/-- C2 as amended: `divide` always returns a number (the quotient or the
int `0`), never `None`, and its handler chain catches every exception;
`parse_color` always returns an `RGB` triple, `(0, 0, 0)` on failure;
`read_json_file` returns the empty mapping on every failure and its
handler chain catches every exception — but only for `str` or `Path`
arguments: for a non-path-like argument the `Path` conversion before the
`try` block raises `TypeError`, which propagates to the caller. -/
theorem failures_recovered_typed_defaults :
    (∀ a b : PyVal, (divide a b).value.isNumber = true) ∧
    (∀ e : PyExc, (firstHandler divideHandlers e).isSome = true) ∧
    (∀ e : PyExc, (firstHandler readJsonHandlers e).isSome = true) ∧
    (∀ (fs : FileSys) (arg : PathArg), arg ≠ PathArg.nonPath →
      ∃ r, read_json_file_call fs arg = Except.ok r) ∧
    (∀ (fs : FileSys) (path : String) (c : FailureCat),
      (read_json_file fs path).category = some c →
      (read_json_file fs path).value = Json.obj []) ∧
    (∀ (ci : ColorInput) (c : FailureCat),
      (parse_color ci).category = some c →
      (parse_color ci).value = ⟨0, 0, 0⟩) := by
  refine ⟨?_, ?_, ?_, ?_, ?_, ?_⟩
  · intro a b
    unfold divide
    cases hd : pyTrueDiv a b with
    | ok q => rfl
    | error e => cases e <;> rfl
  · intro e
    cases e <;> rfl
  · intro e
    cases e <;> rfl
  · intro fs arg hne
    cases arg with
    | str p => exact ⟨read_json_file fs p, rfl⟩
    | pathObj p => exact ⟨read_json_file fs p, rfl⟩
    | nonPath => exact absurd rfl hne
  · intro fs path c h
    unfold read_json_file tryReadJson at h ⊢
    cases ho : openFile fs path with
    | ok payload =>
      cases payload <;>
        simp_all [firstHandler, readJsonHandlers, ExcClass.catches]
    | fnf => simp_all [firstHandler, readJsonHandlers, ExcClass.catches]
    | perm => simp_all [firstHandler, readJsonHandlers, ExcClass.catches]
    | isDir => simp_all [firstHandler, readJsonHandlers, ExcClass.catches]
  · intro ci c h
    unfold parse_color at h ⊢
    cases ht : tryParseColor ci with
    | ok rgb =>
      rw [ht] at h
      exact Option.noConfusion h
    | error e => rfl

/-- Witness for the amended C2 at concrete inputs. -/
theorem failures_recovered_typed_defaults_witness :
    (divide (PyVal.int 10) PyVal.pyNone).value.isNumber = true ∧
    (firstHandler divideHandlers PyExc.valueError).isSome = true ∧
    (firstHandler readJsonHandlers PyExc.otherError).isSome = true ∧
    (∃ r, read_json_file_call emptyFs (PathArg.str "config.json") =
      Except.ok r) ∧
    (read_json_file emptyFs "config.json").value = Json.obj [] ∧
    (parse_color ColorInput.other).value = ⟨0, 0, 0⟩ :=
  ⟨failures_recovered_typed_defaults.1 (PyVal.int 10) PyVal.pyNone,
   failures_recovered_typed_defaults.2.1 PyExc.valueError,
   failures_recovered_typed_defaults.2.2.1 PyExc.otherError,
   failures_recovered_typed_defaults.2.2.2.1 emptyFs
     (PathArg.str "config.json") (fun h => PathArg.noConfusion h),
   failures_recovered_typed_defaults.2.2.2.2.1 emptyFs "config.json"
     FailureCat.resourceNotFound rfl,
   failures_recovered_typed_defaults.2.2.2.2.2 ColorInput.other
     FailureCat.unexpectedError rfl⟩

/-- Every hexadecimal digit has value at most 15. -/
theorem hexVal_le15 (c : Char) : hexVal c ≤ 15 := by
  unfold hexVal
  split
  · omega
  · split
    · omega
    · split
      · omega
      · omega

/-- A one-character digit run parses to at most 15. -/
theorem parseHexNat_len1_le (c : Char) (n : Nat)
    (h : parseHexNat [c] = some n) : n ≤ 15 := by
  have h3 := hexVal_le15 c
  simp only [parseHexNat, hexDigitsAux] at h
  by_cases hd : isHexDigitCh c = true
  · rw [if_pos hd] at h
    have h2 : hexVal c = n := Option.some.inj h
    omega
  · rw [if_neg hd] at h
    exact Option.noConfusion h

/-- A two-character digit run parses to at most 255. -/
theorem parseHexNat_len2_le (c1 c2 : Char) (n : Nat)
    (h : parseHexNat [c1, c2] = some n) : n ≤ 255 := by
  have h3 := hexVal_le15 c1
  have h4 := hexVal_le15 c2
  simp only [parseHexNat, hexDigitsAux] at h
  by_cases hd1 : isHexDigitCh c1 = true
  · rw [if_pos hd1] at h
    by_cases hu : (c2 == '_') = true
    · rw [if_pos hu] at h
      exact Option.noConfusion h
    · rw [if_neg hu] at h
      by_cases hd2 : isHexDigitCh c2 = true
      · rw [if_pos hd2] at h
        have h2 : hexVal c1 * 16 + hexVal c2 = n := Option.some.inj h
        omega
      · rw [if_neg hd2] at h
        exact Option.noConfusion h
  · rw [if_neg hd1] at h
    exact Option.noConfusion h

/-- `int(_, 16)` bodies of at most one character are at most 15. -/
theorem parseHexBody_len1_le (l : List Char) (hl : l.length ≤ 1) (n : Nat)
    (h : parseHexBody l = some n) : n ≤ 15 := by
  match l with
  | [] => exact Option.noConfusion h
  | [c] => exact parseHexNat_len1_le c n h
  | c1 :: c2 :: rest => simp only [List.length_cons] at hl; omega

/-- `int(_, 16)` bodies of at most two characters are at most 255. -/
theorem parseHexBody_len2_le (l : List Char) (hl : l.length ≤ 2) (n : Nat)
    (h : parseHexBody l = some n) : n ≤ 255 := by
  match l with
  | [] => exact Option.noConfusion h
  | [c] => exact le_trans (parseHexNat_len1_le c n h) (by norm_num)
  | [c1, c2] =>
    simp only [parseHexBody] at h
    by_cases hb : (c1 == '0' && (c2 == 'x' || c2 == 'X')) = true
    · rw [if_pos hb] at h
      exact Option.noConfusion h
    · rw [if_neg hb] at h
      exact parseHexNat_len2_le c1 c2 n h
  | c1 :: c2 :: c3 :: rest => simp only [List.length_cons] at hl; omega

/-- Stripping whitespace never lengthens a list. -/
theorem stripWsChars_length_le (l : List Char) :
    (stripWsChars l).length ≤ l.length := by
  unfold stripWsChars
  have h1 : ∀ m : List Char, (m.dropWhile isPyWs).length ≤ m.length := by
    intro m
    induction m with
    | nil => exact le_refl _
    | cons c rest ih =>
      unfold List.dropWhile
      split
      · exact le_trans ih (Nat.le_succ _)
      · exact le_refl _
  calc ((l.dropWhile isPyWs).reverse.dropWhile isPyWs).reverse.length
      = ((l.dropWhile isPyWs).reverse.dropWhile isPyWs).length := by
        rw [List.length_reverse]
    _ ≤ (l.dropWhile isPyWs).reverse.length := h1 _
    _ = (l.dropWhile isPyWs).length := by rw [List.length_reverse]
    _ ≤ l.length := h1 l

/-- A signed body of at most two characters is in `[-15, 255]`. -/
theorem pyIntSigned_len2_bounds (l : List Char) (hl : l.length ≤ 2)
    (n : Int) (hn : pyIntSigned l = some n) : -15 ≤ n ∧ n ≤ 255 := by
  match l with
  | [] => exact Option.noConfusion hn
  | c :: rest =>
    have hr : rest.length ≤ 1 := by
      simp only [List.length_cons] at hl
      omega
    simp only [pyIntSigned] at hn
    by_cases h1 : (c == '+') = true
    · rw [if_pos h1] at hn
      rcases Option.map_eq_some'.mp hn with ⟨m, hm, rfl⟩
      have hb := parseHexBody_len1_le rest hr m hm
      simp only [Int.ofNat_eq_coe]
      constructor <;> omega
    · rw [if_neg h1] at hn
      by_cases h2 : (c == '-') = true
      · rw [if_pos h2] at hn
        rcases Option.map_eq_some'.mp hn with ⟨m, hm, rfl⟩
        have hb := parseHexBody_len1_le rest hr m hm
        simp only [Int.ofNat_eq_coe]
        constructor <;> omega
      · rw [if_neg h2] at hn
        rcases Option.map_eq_some'.mp hn with ⟨m, hm, rfl⟩
        have hb := parseHexBody_len2_le (c :: rest) hl m hm
        simp only [Int.ofNat_eq_coe]
        constructor <;> omega

/-- `int(s, 16)` on a string of at most two characters yields a value in
`[-15, 255]`: two hexadecimal digits reach at most 255, and a sign
followed by a single digit reaches at most 15 in absolute value. -/
theorem pyIntBase16_len2_bounds (l : List Char) (hl : l.length ≤ 2)
    (n : Int) (h : pyIntBase16 l = some n) : -15 ≤ n ∧ n ≤ 255 :=
  pyIntSigned_len2_bounds (stripWsChars l)
    (le_trans (stripWsChars_length_le l) hl) n h

/-- Every value in the `COLOR_NAMES` table has channels in `[0, 255]`. -/
theorem lookupColor_bounds (s : String) (v : Int × Int × Int)
    (h : lookupColor s = some v) :
    0 ≤ v.1 ∧ v.1 ≤ 255 ∧ 0 ≤ v.2.1 ∧ v.2.1 ≤ 255 ∧
    0 ≤ v.2.2 ∧ v.2.2 ≤ 255 := by
  unfold lookupColor at h
  split at h
  · cases Option.some.inj h
    decide
  · split at h
    · cases Option.some.inj h
      decide
    · split at h
      · cases Option.some.inj h
        decide
      · split at h
        · cases Option.some.inj h
          decide
        · split at h
          · cases Option.some.inj h
            decide
          · exact Option.noConfusion h

/-- Each of the three 2-character slices taken by the hex branch has at
most two characters. -/
theorem sliceStr_two_le (s : String) (a : Nat) :
    (sliceStr s a (a + 2)).length ≤ 2 := by
  unfold sliceStr
  rw [List.length_take]
  have : a + 2 - a = 2 := by omega
  rw [this]
  exact min_le_left _ _

/-- Any `RGB` produced by the string branch of `parse_color` has all
channels in `[-15, 255]`: name-table entries are in `[0, 255]`, and each
hex channel comes from `int(_, 16)` on a 2-character slice. -/
theorem parseStrColor_ok_bounds (s : String) (rgb : RGB)
    (h : parseStrColor s = Except.ok rgb) :
    -15 ≤ rgb.red ∧ rgb.red ≤ 255 ∧ -15 ≤ rgb.green ∧ rgb.green ≤ 255 ∧
    -15 ≤ rgb.blue ∧ rgb.blue ≤ 255 := by
  unfold parseStrColor at h
  cases hl : lookupColor (canonColor s) with
  | some v =>
    rcases v with ⟨r, g, b⟩
    rw [hl] at h
    have hv := lookupColor_bounds (canonColor s) (r, g, b) hl
    cases Except.ok.inj h
    dsimp only
    dsimp only at hv
    omega
  | none =>
    rw [hl] at h
    by_cases h6 : (canonColor s).length = 6
    · rw [if_pos h6] at h
      cases h1 : pyIntBase16 (sliceStr (canonColor s) 0 2) with
      | none =>
        rw [h1] at h
        exact Except.noConfusion h
      | some r =>
        rw [h1] at h
        cases h2 : pyIntBase16 (sliceStr (canonColor s) 2 4) with
        | none =>
          rw [h2] at h
          exact Except.noConfusion h
        | some g =>
          rw [h2] at h
          cases h3 : pyIntBase16 (sliceStr (canonColor s) 4 6) with
          | none =>
            rw [h3] at h
            exact Except.noConfusion h
          | some b =>
            rw [h3] at h
            have b1 := pyIntBase16_len2_bounds _ (sliceStr_two_le
              (canonColor s) 0) r h1
            have b2 := pyIntBase16_len2_bounds _ (sliceStr_two_le
              (canonColor s) 2) g h2
            have b3 := pyIntBase16_len2_bounds _ (sliceStr_two_le
              (canonColor s) 4) b h3
            cases Except.ok.inj h
            dsimp only
            omega
    · rw [if_neg h6] at h
      exact Except.noConfusion h

/-- C10 counterexample: the code does not keep every returned channel in
`[0, 255]` — `int(_, 16)` accepts a sign, so the 6-character string
`"-f0000"` reaches the hex branch, its first slice `"-f"` parses to
`-15`, and `parse_color` returns `RGB(-15, 0, 0)` with a negative red
channel. -/
theorem parse_color_negative_hex_cex :
    (parse_color (ColorInput.str "-f0000")).value = ⟨-15, 0, 0⟩ ∧
    (parse_color (ColorInput.str "-f0000")).value.red < 0 := by
  constructor
  · rfl
  · decide

/-- The value `parse_color` returns when its body succeeds. -/
theorem parse_color_value_of_ok (ci : ColorInput) (rgb : RGB)
    (h : tryParseColor ci = Except.ok rgb) : (parse_color ci).value = rgb := by
  unfold parse_color
  rw [h]

/-- The value `parse_color` returns when its body raises. -/
theorem parse_color_value_of_error (ci : ColorInput) (e : PyExc)
    (h : tryParseColor ci = Except.error e) :
    (parse_color ci).value = ⟨0, 0, 0⟩ := by
  unfold parse_color
  rw [h]

/-- C10 as amended: every channel of every `parse_color` result lies in
`[-15, 255]` — name-table entries and clamped tuples are in `[0, 255]`
and the fallback is `(0, 0, 0)`, but a hex channel slice carrying a sign
can be negative, down to `-15` (`int("-f", 16) = -15`), so `[0, 255]`
must be widened to `[-15, 255]` for the hex branch. -/
theorem parse_color_components_bounded (ci : ColorInput) :
    -15 ≤ (parse_color ci).value.red ∧ (parse_color ci).value.red ≤ 255 ∧
    -15 ≤ (parse_color ci).value.green ∧
    (parse_color ci).value.green ≤ 255 ∧
    -15 ≤ (parse_color ci).value.blue ∧
    (parse_color ci).value.blue ≤ 255 := by
  cases ci with
  | str s =>
    cases ht : tryParseColor (ColorInput.str s) with
    | ok rgb =>
      rw [parse_color_value_of_ok _ _ ht]
      exact parseStrColor_ok_bounds s rgb ht
    | error e =>
      rw [parse_color_value_of_error _ _ ht]
      decide
  | tuple3 r g b =>
    rw [parse_color_value_of_ok (ColorInput.tuple3 r g b)
      ⟨pyClamp r, pyClamp g, pyClamp b⟩ rfl]
    unfold pyClamp
    dsimp only
    omega
  | other =>
    rw [parse_color_value_of_error ColorInput.other PyExc.valueError rfl]
    decide
